import Mathlib

/-!
Verification of the OpenBanking MCP server's data-aggregation and
agent-routing core, as a shallow embedding of the Python source
(`src/utils/bank_api_client.py`, `src/agents/agent_manager.py`,
`src/main.py`, `src/config/config.py`).

External I/O is modelled with oracles: the upstream bank HTTP service is
a function from the full request URL to either a decoded JSON body or
the message of the raised transport/HTTP exception; the language-model
runtime's `generate` call is a function from (model, prompt) to either
the response text or an error message.  Machine-level details that no
claim touches (header assembly, float generation options, logging) are
noted in comments where they are elided.
-/

/-- Decoded JSON values, as produced by `response.json()`.  Objects keep
their fields as an ordered association list, mirroring the insertion
order of Python dict literals. -/
inductive Json where
  | null : Json
  | str (s : String) : Json
  | num (n : Int) : Json
  | arr (elems : List Json) : Json
  | obj (fields : List (String × Json)) : Json

/-- The keys of a JSON object, in insertion order (Python `dict.keys()`);
empty for non-objects. -/
def Json.keys : Json → List String
  | .obj fields => fields.map Prod.fst
  | _ => []

/-- Python `dict.get(k)` / `dict[k]` on a JSON object (first binding wins;
the dict literals in this code never repeat a key). -/
def Json.lookup (j : Json) (k : String) : Option Json :=
  match j with
  | .obj fields => fields.lookup k
  | _ => none

/-- The endpoint templates of `BankApiConfig.endpoints`
(`src/config/config.py`, default_factory dict).  Each subject-scoped
template contains the placeholder `{CustomerOID}`. -/
structure Endpoints where
  customer : String
  portfolio : String
  transactions : String
  accounts : String
  market_data : String
  risk_metrics : String

/-- The default endpoint templates from `config.py`. -/
def defaultEndpoints : Endpoints :=
  { customer := "/api/customers/\x7bCustomerOID\x7d"
  , portfolio := "/api/portfolio/\x7bCustomerOID\x7d"
  , transactions := "/api/transactions/\x7bCustomerOID\x7d"
  , accounts := "/api/accounts/\x7bCustomerOID\x7d"
  , market_data := "/api/market-data"
  , risk_metrics := "/api/risk/\x7bCustomerOID\x7d" }

/-- Replace every occurrence of the (non-empty) pattern `p` in the
character list by `r`, with an explicit fuel bound so the recursion is
structural and hence kernel-evaluable; fuel equal to the list length
always suffices for a non-empty pattern. -/
def replaceCharsFuel (p r : List Char) : Nat → List Char → List Char
  | 0, l => l
  | fuel + 1, l =>
    match l with
    | [] => []
    | c :: cs =>
      if p.isPrefixOf (c :: cs) then r ++ replaceCharsFuel p r fuel (cs.drop (p.length - 1))
      else c :: replaceCharsFuel p r fuel cs

/-- `template.format(CustomerOID=customer_oid)`: substitute the
placeholder with the subject identifier. -/
def formatCustomerOID (template customer_oid : String) : String :=
  ⟨replaceCharsFuel "\x7bCustomerOID\x7d".toList customer_oid.toList
    template.toList.length template.toList⟩

/-- State of `BankApiClient.__init__`: base URL, optional bearer key and
the endpoint templates (timeout is carried by the HTTP oracle). -/
structure BankApiClient where
  base_url : String
  api_key : String
  endpoints : Endpoints

/-- The upstream bank service as an oracle: full request URL to decoded
JSON body (`.ok`) or the message of the exception `_make_request`
re-raises on transport error, non-2xx status or decode failure
(`.error`).  Headers (content type, optional bearer token) do not
influence which URL is consulted, so they are not part of the oracle's
input. -/
def BankHttp : Type := String → Except String Json

/-- `BankApiClient._make_request` for GET: build the target URL from the
base URL and the endpoint and perform the request.  Any failure is
re-raised, i.e. surfaces as `.error` to the caller. -/
def make_request (c : BankApiClient) (http : BankHttp) (endpoint : String) :
    Except String Json :=
  http (c.base_url ++ endpoint)

/-- `BankApiClient.get_customer_data`: fetch the customer profile;
on any exception return the error dict instead of raising. -/
def get_customer_data (c : BankApiClient) (http : BankHttp)
    (customer_oid : String) : Json :=
  match make_request c http (formatCustomerOID c.endpoints.customer customer_oid) with
  | .ok data => data
  | .error e => Json.obj [("error", Json.str ("Failed to retrieve customer data: " ++ e))]

/-- `BankApiClient.get_portfolio_data`. -/
def get_portfolio_data (c : BankApiClient) (http : BankHttp)
    (customer_oid : String) : Json :=
  match make_request c http (formatCustomerOID c.endpoints.portfolio customer_oid) with
  | .ok data => data
  | .error e => Json.obj [("error", Json.str ("Failed to retrieve portfolio data: " ++ e))]

/-- The Python type name of a decoded JSON value, as it appears in
`AttributeError`/`TypeError` messages (numbers are modelled as `int`). -/
def Json.pyType : Json → String
  | .null => "NoneType"
  | .str _ => "str"
  | .num _ => "int"
  | .arr _ => "list"
  | .obj _ => "dict"

/-- The exception, if any, raised by the logging expression
`len(data.get('transactions', []))` evaluated inside the `try` of
`get_transactions` before `data` is returned: a non-dict body has no
`.get` (`AttributeError`), and a present `transactions` value that is
not sized — `None` or a number — has no `len()` (`TypeError`).  A
missing key falls back to the default `[]`, whose length is 0. -/
def transactions_log_exc : Json → Option String
  | .obj fields =>
    match fields.lookup "transactions" with
    | none => none
    | some v =>
      match v with
      | .str _ => none
      | .arr _ => none
      | .obj _ => none
      | .null => some "object of type \x27NoneType\x27 has no len()"
      | .num _ => some "object of type \x27int\x27 has no len()"
  | d => some ("\x27" ++ d.pyType ++ "\x27 object has no attribute \x27get\x27")

/-- `BankApiClient.get_transactions`: the Python default for `limit` is
100; `get_comprehensive_customer_data` passes 50 explicitly.  A truthy
(non-zero) limit is appended to the endpoint as a `?limit=` query
parameter.  Before returning, the logging call evaluates
`len(data.get('transactions', []))` inside the `try`; if that raises
(non-dict body, or unsized `transactions` value) the exception is
caught like any other and the error descriptor is returned.  Otherwise
the decoded body is returned unchanged — there is no client-side
truncation. -/
def get_transactions (c : BankApiClient) (http : BankHttp)
    (customer_oid : String) (limit : Nat) : Json :=
  let endpoint := formatCustomerOID c.endpoints.transactions customer_oid
  let endpoint := if limit ≠ 0 then endpoint ++ "?limit=" ++ toString limit else endpoint
  match make_request c http endpoint with
  | .ok data =>
    match transactions_log_exc data with
    | none => data
    | some e => Json.obj [("error", Json.str ("Failed to retrieve transactions: " ++ e))]
  | .error e => Json.obj [("error", Json.str ("Failed to retrieve transactions: " ++ e))]

/-- `BankApiClient.get_accounts`. -/
def get_accounts (c : BankApiClient) (http : BankHttp)
    (customer_oid : String) : Json :=
  match make_request c http (formatCustomerOID c.endpoints.accounts customer_oid) with
  | .ok data => data
  | .error e => Json.obj [("error", Json.str ("Failed to retrieve accounts: " ++ e))]

/-- `BankApiClient.get_risk_metrics`. -/
def get_risk_metrics (c : BankApiClient) (http : BankHttp)
    (customer_oid : String) : Json :=
  match make_request c http (formatCustomerOID c.endpoints.risk_metrics customer_oid) with
  | .ok data => data
  | .error e => Json.obj [("error", Json.str ("Failed to retrieve risk metrics: " ++ e))]

/-- `BankApiClient.get_comprehensive_customer_data`.  The five source
fetches are dispatched concurrently via `asyncio.gather` with
`return_exceptions=True`; because every individual getter catches all of
its own exceptions and returns an error dict, the gathered results are
never `Exception` instances and the `isinstance(_, Exception)` guards in
the dict literal never fire — each field is the getter's value directly.
The try/except around the whole method (the blanket
"Failed to retrieve comprehensive customer data" error) can only be
reached by an unexpected internal exception raised before/outside the
per-source getters; that possibility is modelled by the
`internal_fault` input. -/
def get_comprehensive_customer_data (c : BankApiClient) (http : BankHttp)
    (internal_fault : Option String) (customer_oid : String) : Json :=
  match internal_fault with
  | some e =>
      Json.obj [("error", Json.str ("Failed to retrieve comprehensive customer data: " ++ e))]
  | none =>
      Json.obj
        [ ("customer_oid", Json.str customer_oid)
        , ("customer", get_customer_data c http customer_oid)
        , ("portfolio", get_portfolio_data c http customer_oid)
        , ("accounts", get_accounts c http customer_oid)
        , ("transactions", get_transactions c http customer_oid 50)
        , ("risk_metrics", get_risk_metrics c http customer_oid) ]

/-- `AgentConfig` (`src/config/config.py`): the configuration an agent
is created from.  `temperature`/`max_tokens` are floats/ints consumed
only as generation options and touched by no claim; they are elided. -/
structure AgentConfig where
  name : String
  model : String
  role : String
  system_prompt : String
  enabled : Bool

/-- `Agent` state after `Agent.__init__`: note that both `model` and
`model_name` are initialised from `config.model`, `is_available` from
`False`. -/
structure Agent where
  name : String
  model : String
  model_name : String
  role : String
  system_prompt : String
  is_available : Bool
deriving DecidableEq

/-- `Agent.__init__` from an `AgentConfig`. -/
def Agent.init (config : AgentConfig) : Agent :=
  { name := config.name
  , model := config.model
  , model_name := config.model
  , role := config.role
  , system_prompt := config.system_prompt
  , is_available := false }

/-- `self.model.split(':')[0]`: the base name before the first
version/tag separator (the whole name when no separator occurs). -/
def model_base (model : String) : String :=
  ⟨model.toList.takeWhile (fun c => c ≠ ':')⟩

/-- Python `s.startswith(pre)`, as a kernel-evaluable prefix test on the
character lists. -/
def strStartsWith (s pre : String) : Bool :=
  pre.toList.isPrefixOf s.toList

/-- The first available model whose name starts with `base`, in list
order — the `for available_model in available_models` loop of
`Agent.is_model_available`. -/
def firstBaseMatch (base : String) : List String → Option String
  | [] => none
  | m :: ms => if strStartsWith m base then some m else firstBaseMatch base ms

/-- `Agent.is_model_available`: given the model names extracted from the
runtime's `list()` response (the hasattr/dict/str normalisation that
produces `available_models` is response-format plumbing and is modelled
by taking the extracted name list as input), drop empty names, then
(1) exact match: return True unchanged; (2) first prefix match on the
base name: rewrite `self.model` to the matched name and return True;
(3) otherwise return False.  The pair returned is (result, updated
agent state). -/
def Agent.is_model_available (a : Agent) (available_models : List String) :
    Bool × Agent :=
  let avail := available_models.filter (fun m => m != "")
  if avail.contains a.model then (true, a)
  else
    match firstBaseMatch (model_base a.model) avail with
    | some m => (true, { a with model := m })
    | none => (false, a)

/-- `AgentManager._initialize_agents`: for each enabled configuration,
create the agent, probe model availability; on success set
`is_available` and insert into the registry dict under the config's
name; on failure (or a raised exception) log and continue with the next
configuration.  The registry is an insertion-ordered association list,
mirroring a Python dict with unique agent names. -/
def init_agents_step (available_models : List String)
    (agents : List (String × Agent)) (config : AgentConfig) : List (String × Agent) :=
  if config.enabled then
    match (Agent.init config).is_model_available available_models with
    | (true, a) => agents ++ [(config.name, { a with is_available := true })]
    | (false, _) => agents
  else agents

/-- The loop of `AgentManager._initialize_agents` over the configured
agents, starting from the empty registry. -/
def initialize_agents (configs : List AgentConfig) (available_models : List String) :
    List (String × Agent) :=
  configs.foldl (init_agents_step available_models) []

/-- `AgentManager.get_agent`: `self.agents.get(agent_name)`. -/
def get_agent (agents : List (String × Agent)) (agent_name : String) : Option Agent :=
  agents.lookup agent_name

/-- The language-model runtime's `generate` call as an oracle:
(model, full prompt) to response text or the raised error's message.
The float/int generation options (temperature, num_predict) are elided;
no claim mentions them. -/
def GenOracle : Type := String → String → Except String String

/-- The customer-context block interpolated into the prompt when a
`customer_oid` is supplied (`Agent.generate_response`).  `render` stands
for Python's `repr` of the interpolated dicts; `dict.get(k, {})`
defaults to the empty dict. -/
def customer_context_block (render : Json → String) (customer_oid : String)
    (customer_data : Json) : String :=
  "\nCustomer Data for " ++ customer_oid ++ ":\n" ++
  "- Customer Profile: " ++ render ((customer_data.lookup "customer").getD (Json.obj [])) ++ "\n" ++
  "- Portfolio: " ++ render ((customer_data.lookup "portfolio").getD (Json.obj [])) ++ "\n" ++
  "- Accounts: " ++ render ((customer_data.lookup "accounts").getD (Json.obj [])) ++ "\n" ++
  "- Recent Transactions: " ++ render ((customer_data.lookup "transactions").getD (Json.obj [])) ++ "\n" ++
  "- Risk Metrics: " ++ render ((customer_data.lookup "risk_metrics").getD (Json.obj [])) ++ "\n"

/-- The `full_prompt` assembled by `Agent.generate_response` before the
`generate` call: system prompt, optional context, optional customer
context (fetched via `get_comprehensive_customer_data`, which never
raises), then the user query. -/
def build_full_prompt (a : Agent) (c : BankApiClient) (http : BankHttp)
    (render : Json → String) (prompt : String) (context : Option String)
    (customer_oid : Option String) : String :=
  let base := a.system_prompt ++ "\n\n"
  match customer_oid with
  | some oid =>
      let customer_data := get_comprehensive_customer_data c http none oid
      let ctx_part :=
        match context with
        | some ctx => "Context: " ++ ctx ++ "\n\n"
        | none => ""
      base ++ ctx_part ++
        "Customer Context: " ++ customer_context_block render oid customer_data ++ "\n\n" ++
        "User Query: " ++ prompt
  | none =>
      let ctx_part :=
        match context with
        | some ctx => "Context: " ++ ctx ++ "\n\n"
        | none => ""
      base ++ ctx_part ++ "User Query: " ++ prompt

/-- `Agent.generate_response`: build the full prompt, call the runtime
with `model=self.model`, return the response text; on any exception
return (not raise) the error string
`"Error: Unable to generate response - " + str(e)`. -/
def Agent.generate_response (a : Agent) (c : BankApiClient) (http : BankHttp)
    (gen : GenOracle) (render : Json → String) (prompt : String)
    (context : Option String) (customer_oid : Option String) : String :=
  match gen a.model (build_full_prompt a c http render prompt context customer_oid) with
  | .ok r => r
  | .error e => "Error: Unable to generate response - " ++ e

/-- `AgentManager.query_agent`: look the agent up; if absent return the
not-found error string, else delegate to its `generate_response`
(without a customer_oid). -/
def query_agent (agents : List (String × Agent)) (c : BankApiClient)
    (http : BankHttp) (gen : GenOracle) (render : Json → String)
    (prompt : String) (context : Option String) (agent_name : String) : String :=
  match get_agent agents agent_name with
  | none => "Error: Agent \x27" ++ agent_name ++ "\x27 not found"
  | some agent => agent.generate_response c http gen render prompt context none

/-- The `task_agent_mapping` dict of `AgentManager.query_best_agent`. -/
def task_agent_mapping : List (String × String) :=
  [ ("market_analysis", "market_analyst")
  , ("portfolio", "portfolio_manager")
  , ("risk", "risk_analyst")
  , ("explanation", "explainability_agent")
  , ("swot", "explainability_agent")
  , ("strategy", "portfolio_manager")
  , ("general", "explainability_agent") ]

/-- `AgentManager.query_best_agent`: preferred agent by task type (dict
`.get` with default `"explainability_agent"`); if registered, query it;
otherwise fall back to the first registered agent in insertion order
(`list(self.agents.keys())[0]`); with an empty registry return the
`("none", "Error: No agents available")` sentinel. -/
def query_best_agent (agents : List (String × Agent)) (c : BankApiClient)
    (http : BankHttp) (gen : GenOracle) (render : Json → String)
    (prompt : String) (task_type : String) (context : Option String) :
    String × String :=
  let preferred_agent := (task_agent_mapping.lookup task_type).getD "explainability_agent"
  if (agents.lookup preferred_agent).isSome then
    (preferred_agent, query_agent agents c http gen render prompt context preferred_agent)
  else
    match agents with
    | [] => ("none", "Error: No agents available")
    | (fallback_agent, _) :: _ =>
        (fallback_agent, query_agent agents c http gen render prompt context fallback_agent)

/-- The `tool_agent_mapping` dict of `AgentManager.get_agent_for_tool`. -/
def tool_agent_mapping : List (String × String) :=
  [ ("get_market_data", "market_analyst")
  , ("analyze_stock", "market_analyst")
  , ("get_economic_indicators", "market_analyst")
  , ("market_sentiment", "market_analyst")
  , ("portfolio_analysis", "portfolio_manager")
  , ("asset_allocation", "portfolio_manager")
  , ("rebalance_portfolio", "portfolio_manager")
  , ("performance_metrics", "portfolio_manager")
  , ("calculate_var", "risk_analyst")
  , ("stress_test", "risk_analyst")
  , ("correlation_analysis", "risk_analyst")
  , ("risk_metrics", "risk_analyst")
  , ("backtest_strategy", "portfolio_manager")
  , ("optimize_portfolio", "portfolio_manager")
  , ("generate_signals", "market_analyst")
  , ("explain_analysis", "explainability_agent")
  , ("swot_analysis", "explainability_agent")
  , ("summarize_results", "explainability_agent") ]

/-- `AgentManager.get_agent_for_tool`: direct dict lookup of the tool
name; `self.get_agent(agent_name) if agent_name else None` — an
unmapped tool yields no agent, a mapped but unregistered agent also
yields no agent, and there is no fallback of any kind. -/
def get_agent_for_tool (agents : List (String × Agent)) (tool_name : String) :
    Option Agent :=
  match tool_agent_mapping.lookup tool_name with
  | some agent_name => get_agent agents agent_name
  | none => none

/-- The `/mcp/call` handler (`src/main.py`, `call_tool`): resolve the
agent for the tool; if none, answer the `{"error": "No agent available
for tool: ..."}` body, else execute the tool via the agent's
`execute_tool` (abstracted by `execute`, since the claims concern only
the agent-selection outcome). -/
def call_tool (agents : List (String × Agent)) (execute : Agent → String)
    (tool_name : String) : Except String String :=
  match get_agent_for_tool agents tool_name with
  | none => .error ("No agent available for tool: " ++ tool_name)
  | some agent => .ok (execute agent)

/-- The per-agent entries of the `/mcp/status` handler (`src/main.py`,
`get_status`): for each registered agent, report
`{"available": agent.is_available, "model": agent.model_name}`. -/
def get_status_agents (agents : List (String × Agent)) :
    List (String × Bool × String) :=
  agents.map (fun p => (p.fst, p.snd.is_available, p.snd.model_name))

/-- `AgentManager.shutdown`: `self.agents.clear()`. -/
def shutdown (_agents : List (String × Agent)) : List (String × Agent) := []

/-- Full request URL of the customer-profile fetch. -/
def customer_url (c : BankApiClient) (customer_oid : String) : String :=
  c.base_url ++ formatCustomerOID c.endpoints.customer customer_oid

/-- Full request URL of the portfolio fetch. -/
def portfolio_url (c : BankApiClient) (customer_oid : String) : String :=
  c.base_url ++ formatCustomerOID c.endpoints.portfolio customer_oid

/-- Full request URL of the accounts fetch. -/
def accounts_url (c : BankApiClient) (customer_oid : String) : String :=
  c.base_url ++ formatCustomerOID c.endpoints.accounts customer_oid

/-- Full request URL of the risk-metrics fetch. -/
def risk_url (c : BankApiClient) (customer_oid : String) : String :=
  c.base_url ++ formatCustomerOID c.endpoints.risk_metrics customer_oid

/-- Full request URL of the transactions fetch, including the `?limit=`
query parameter when the limit is truthy (mirrors the endpoint
construction inside `get_transactions`). -/
def transactions_url (c : BankApiClient) (customer_oid : String) (limit : Nat) : String :=
  let endpoint := formatCustomerOID c.endpoints.transactions customer_oid
  let endpoint := if limit ≠ 0 then endpoint ++ "?limit=" ++ toString limit else endpoint
  c.base_url ++ endpoint

/-- Whether `p` occurs as a contiguous sublist, checked position by
position. -/
def occursInChars (p : List Char) : List Char → Bool
  | [] => p.isPrefixOf []
  | c :: cs => p.isPrefixOf (c :: cs) || occursInChars p cs

/-- Whether `sub` occurs as a substring of `s` (Python `sub in s`). -/
def occursIn (sub s : String) : Bool :=
  occursInChars sub.toList s.toList

/-- A bank client with the default configuration of `config.py`. -/
def bankC : BankApiClient :=
  { base_url := "http://localhost:3000", api_key := "", endpoints := defaultEndpoints }

/-- A bank service where every request succeeds with `null`. -/
def httpAllOk : BankHttp := fun _ => .ok Json.null

/-- A bank service for subject `CUST1` where exactly the transactions
fetch times out and the other four sources answer distinct payloads. -/
def httpOneFail : BankHttp := fun url =>
  if url = customer_url bankC "CUST1" then .ok (Json.str "customer-data")
  else if url = portfolio_url bankC "CUST1" then .ok (Json.str "portfolio-data")
  else if url = accounts_url bankC "CUST1" then .ok (Json.str "accounts-data")
  else if url = risk_url bankC "CUST1" then .ok (Json.str "risk-data")
  else .error "timeout"

/-- A bank service whose transactions endpoint answers a bare JSON
array of 51 entries (not an object); everything else answers `null`. -/
def httpBigTx : BankHttp := fun url =>
  if url = transactions_url bankC "CUST1" 50 then
    .ok (Json.arr (List.replicate 51 Json.null))
  else .ok Json.null

/-- A bank service whose transactions endpoint ignores the limit and
answers an object holding 51 transaction entries; everything else
answers `null`. -/
def httpBigTxObj : BankHttp := fun url =>
  if url = transactions_url bankC "CUST1" 50 then
    .ok (Json.obj [("transactions", Json.arr (List.replicate 51 Json.null))])
  else .ok Json.null

/-- A bank service whose transactions endpoint answers a bare JSON
number; everything else answers `null`. -/
def httpNumTx : BankHttp := fun url =>
  if url = transactions_url bankC "CUST1" 50 then .ok (Json.num 7)
  else .ok Json.null

/-- A generation oracle that always answers `"OK"`. -/
def genOk : GenOracle := fun _ _ => .ok "OK"

/-- A generation oracle that always raises with message `"boom"`. -/
def genBoom : GenOracle := fun _ _ => .error "boom"

/-- A stub for Python `repr` of interpolated dicts. -/
def renderStub : Json → String := fun _ => ""

/-- A registered-agent fixture (post-probe state) with the given name
and model. -/
def mkAgent (n m : String) : Agent :=
  { name := n, model := m, model_name := m, role := "role"
  , system_prompt := "sp", is_available := true }

/-- An agent-configuration fixture. -/
def mkCfg (n m : String) : AgentConfig :=
  { name := n, model := m, role := "role", system_prompt := "sp", enabled := true }

/-- A registry containing only `portfolio_manager`. -/
def regPM : List (String × Agent) := [("portfolio_manager", mkAgent "portfolio_manager" "llama3.2:3b")]

/-- A registry containing only `explainability_agent`. -/
def regEx : List (String × Agent) := [("explainability_agent", mkAgent "explainability_agent" "llama3.2:3b")]

/-- A registry containing only `risk_analyst`. -/
def regRisk : List (String × Agent) := [("risk_analyst", mkAgent "risk_analyst" "llama3.2:3b")]

/-- Unfolding lemma: the customer fetch consults exactly its URL. -/
theorem get_customer_data_eq (c : BankApiClient) (http : BankHttp) (oid : String) :
    get_customer_data c http oid =
      match http (customer_url c oid) with
      | .ok data => data
      | .error e => Json.obj [("error", Json.str ("Failed to retrieve customer data: " ++ e))] := rfl

/-- Unfolding lemma: the portfolio fetch consults exactly its URL. -/
theorem get_portfolio_data_eq (c : BankApiClient) (http : BankHttp) (oid : String) :
    get_portfolio_data c http oid =
      match http (portfolio_url c oid) with
      | .ok data => data
      | .error e => Json.obj [("error", Json.str ("Failed to retrieve portfolio data: " ++ e))] := rfl

/-- Unfolding lemma: the accounts fetch consults exactly its URL. -/
theorem get_accounts_eq (c : BankApiClient) (http : BankHttp) (oid : String) :
    get_accounts c http oid =
      match http (accounts_url c oid) with
      | .ok data => data
      | .error e => Json.obj [("error", Json.str ("Failed to retrieve accounts: " ++ e))] := rfl

/-- Unfolding lemma: the risk-metrics fetch consults exactly its URL. -/
theorem get_risk_metrics_eq (c : BankApiClient) (http : BankHttp) (oid : String) :
    get_risk_metrics c http oid =
      match http (risk_url c oid) with
      | .ok data => data
      | .error e => Json.obj [("error", Json.str ("Failed to retrieve risk metrics: " ++ e))] := rfl

/-- Unfolding lemma: the transactions fetch consults exactly its
limit-qualified URL; a decoded body on which the logging expression
does not raise is passed through unchanged, any other outcome yields
the error descriptor. -/
theorem get_transactions_eq (c : BankApiClient) (http : BankHttp) (oid : String) (limit : Nat) :
    get_transactions c http oid limit =
      match http (transactions_url c oid limit) with
      | .ok data =>
        match transactions_log_exc data with
        | none => data
        | some e => Json.obj [("error", Json.str ("Failed to retrieve transactions: " ++ e))]
      | .error e => Json.obj [("error", Json.str ("Failed to retrieve transactions: " ++ e))] := rfl

/-- The key list of a fault-free composite record, shared helper. -/
theorem comprehensive_keys (c : BankApiClient) (http : BankHttp) (oid : String) :
    (get_comprehensive_customer_data c http none oid).keys =
      ["customer_oid", "customer", "portfolio", "accounts", "transactions", "risk_metrics"] := rfl

/-- C1, counterexample: the claim that the composite record contains
exactly the five source keys and no others is false — at subject
`"CUST1"` with every source succeeding, the record additionally
contains the `customer_oid` key, which is not one of the five. -/
theorem comprehensive_five_keys_cex :
    ¬ ((get_comprehensive_customer_data bankC httpAllOk none "CUST1").keys =
        ["customer", "portfolio", "accounts", "transactions", "risk_metrics"])
    ∧ "customer_oid" ∈ (get_comprehensive_customer_data bankC httpAllOk none "CUST1").keys
    ∧ "customer_oid" ∉ ["customer", "portfolio", "accounts", "transactions", "risk_metrics"] := by
  refine ⟨?_, ?_, ?_⟩ <;> decide

/-- C1 (amended): for every subject and every pattern of source
success/failure, the composite fetch (absent an internal pre-dispatch
fault) returns a record whose keys are exactly the five fixed source
keys plus the echoed `customer_oid` key, in this fixed order. -/
theorem comprehensive_keys_exact (c : BankApiClient) (http : BankHttp) (customer_oid : String) :
    (get_comprehensive_customer_data c http none customer_oid).keys =
      ["customer_oid", "customer", "portfolio", "accounts", "transactions", "risk_metrics"] :=
  comprehensive_keys c http customer_oid

/-- C2: per-source failure isolation of the composite fetch.  For every
subject and every behaviour of the bank service: a failing source's key
holds that source's error descriptor, a succeeding source's key holds
its decoded payload unchanged, the composite is never the blanket
aggregation error when no internal fault occurs — the blanket error
arises exactly from an internal fault before dispatch. -/
theorem comprehensive_isolates_source_failures (c : BankApiClient) (http : BankHttp) (oid : String) :
    (∀ e, http (customer_url c oid) = .error e →
      (get_comprehensive_customer_data c http none oid).lookup "customer" =
        some (Json.obj [("error", Json.str ("Failed to retrieve customer data: " ++ e))]))
  ∧ (∀ d, http (customer_url c oid) = .ok d →
      (get_comprehensive_customer_data c http none oid).lookup "customer" = some d)
  ∧ (∀ e, http (portfolio_url c oid) = .error e →
      (get_comprehensive_customer_data c http none oid).lookup "portfolio" =
        some (Json.obj [("error", Json.str ("Failed to retrieve portfolio data: " ++ e))]))
  ∧ (∀ d, http (portfolio_url c oid) = .ok d →
      (get_comprehensive_customer_data c http none oid).lookup "portfolio" = some d)
  ∧ (∀ e, http (accounts_url c oid) = .error e →
      (get_comprehensive_customer_data c http none oid).lookup "accounts" =
        some (Json.obj [("error", Json.str ("Failed to retrieve accounts: " ++ e))]))
  ∧ (∀ d, http (accounts_url c oid) = .ok d →
      (get_comprehensive_customer_data c http none oid).lookup "accounts" = some d)
  ∧ (∀ e, http (transactions_url c oid 50) = .error e →
      (get_comprehensive_customer_data c http none oid).lookup "transactions" =
        some (Json.obj [("error", Json.str ("Failed to retrieve transactions: " ++ e))]))
  ∧ (∀ d, http (transactions_url c oid 50) = .ok d → transactions_log_exc d = none →
      (get_comprehensive_customer_data c http none oid).lookup "transactions" = some d)
  ∧ (∀ d e, http (transactions_url c oid 50) = .ok d → transactions_log_exc d = some e →
      (get_comprehensive_customer_data c http none oid).lookup "transactions" =
        some (Json.obj [("error", Json.str ("Failed to retrieve transactions: " ++ e))]))
  ∧ (∀ e, http (risk_url c oid) = .error e →
      (get_comprehensive_customer_data c http none oid).lookup "risk_metrics" =
        some (Json.obj [("error", Json.str ("Failed to retrieve risk metrics: " ++ e))]))
  ∧ (∀ d, http (risk_url c oid) = .ok d →
      (get_comprehensive_customer_data c http none oid).lookup "risk_metrics" = some d)
  ∧ (∀ e, get_comprehensive_customer_data c http none oid ≠
      Json.obj [("error", Json.str ("Failed to retrieve comprehensive customer data: " ++ e))])
  ∧ (∀ e, get_comprehensive_customer_data c http (some e) oid =
      Json.obj [("error", Json.str ("Failed to retrieve comprehensive customer data: " ++ e))]) := by
  refine ⟨?_, ?_, ?_, ?_, ?_, ?_, ?_, ?_, ?_, ?_, ?_, ?_, ?_⟩
  · intro e h
    show some (get_customer_data c http oid) = _
    rw [get_customer_data_eq, h]
  · intro d h
    show some (get_customer_data c http oid) = _
    rw [get_customer_data_eq, h]
  · intro e h
    show some (get_portfolio_data c http oid) = _
    rw [get_portfolio_data_eq, h]
  · intro d h
    show some (get_portfolio_data c http oid) = _
    rw [get_portfolio_data_eq, h]
  · intro e h
    show some (get_accounts c http oid) = _
    rw [get_accounts_eq, h]
  · intro d h
    show some (get_accounts c http oid) = _
    rw [get_accounts_eq, h]
  · intro e h
    show some (get_transactions c http oid 50) = _
    rw [get_transactions_eq, h]
  · intro d h hlog
    show some (get_transactions c http oid 50) = _
    rw [get_transactions_eq, h]
    show some (match transactions_log_exc d with
      | none => d
      | some e => Json.obj [("error", Json.str ("Failed to retrieve transactions: " ++ e))]) = _
    rw [hlog]
  · intro d e h hlog
    show some (get_transactions c http oid 50) = _
    rw [get_transactions_eq, h]
    show some (match transactions_log_exc d with
      | none => d
      | some e => Json.obj [("error", Json.str ("Failed to retrieve transactions: " ++ e))]) = _
    rw [hlog]
  · intro e h
    show some (get_risk_metrics c http oid) = _
    rw [get_risk_metrics_eq, h]
  · intro d h
    show some (get_risk_metrics c http oid) = _
    rw [get_risk_metrics_eq, h]
  · intro e h
    have hk := congrArg (fun j => j.keys.length) h
    simp only [comprehensive_keys, Json.keys, List.map, List.length] at hk
    omega
  · intro e
    rfl

/-- C2, witness: at subject `"CUST1"` against a bank service where only
the transactions fetch times out, the transactions key holds the error
descriptor, the other four keys hold their payloads, the composite is
not the blanket error, and an internal fault yields exactly the
blanket error; against a service whose transactions endpoint answers a
bare number, the logging expression's `AttributeError` is caught and
the transactions key holds its error descriptor. -/
theorem comprehensive_isolates_source_failures_witness :
    (get_comprehensive_customer_data bankC httpOneFail none "CUST1").lookup "transactions" =
      some (Json.obj [("error", Json.str ("Failed to retrieve transactions: " ++ "timeout"))])
  ∧ (get_comprehensive_customer_data bankC httpOneFail none "CUST1").lookup "customer" =
      some (Json.str "customer-data")
  ∧ (get_comprehensive_customer_data bankC httpOneFail none "CUST1").lookup "portfolio" =
      some (Json.str "portfolio-data")
  ∧ (get_comprehensive_customer_data bankC httpOneFail none "CUST1").lookup "accounts" =
      some (Json.str "accounts-data")
  ∧ (get_comprehensive_customer_data bankC httpOneFail none "CUST1").lookup "risk_metrics" =
      some (Json.str "risk-data")
  ∧ get_comprehensive_customer_data bankC httpOneFail none "CUST1" ≠
      Json.obj [("error", Json.str ("Failed to retrieve comprehensive customer data: " ++ "x"))]
  ∧ get_comprehensive_customer_data bankC httpOneFail (some "boom") "CUST1" =
      Json.obj [("error", Json.str ("Failed to retrieve comprehensive customer data: " ++ "boom"))]
  ∧ (get_comprehensive_customer_data bankC httpNumTx none "CUST1").lookup "transactions" =
      some (Json.obj [("error", Json.str ("Failed to retrieve transactions: " ++
        "\x27int\x27 object has no attribute \x27get\x27"))]) := by
  obtain ⟨custE, custO, portE, portO, accE, accO, txE, txO, txBad, riskE, riskO, noBlanket, fault⟩ :=
    comprehensive_isolates_source_failures bankC httpOneFail "CUST1"
  obtain ⟨_, _, _, _, _, _, _, _, txBad2, _, _, _, _⟩ :=
    comprehensive_isolates_source_failures bankC httpNumTx "CUST1"
  exact ⟨txE "timeout" rfl, custO (Json.str "customer-data") rfl,
    portO (Json.str "portfolio-data") rfl, accO (Json.str "accounts-data") rfl,
    riskO (Json.str "risk-data") rfl, noBlanket "x", fault "boom",
    txBad2 (Json.num 7) "\x27int\x27 object has no attribute \x27get\x27" rfl rfl⟩

/-- C8, counterexample: the claim that the transactions payload is
always returned unchanged is false — when the server answers the
limit-50 request with a bare JSON array of 51 entries, the logging
expression `len(data.get('transactions', []))` raises `AttributeError`
inside the `try`, so the transactions key holds the error descriptor
rather than the server's payload. -/
theorem transactions_passthrough_cex :
    httpBigTx (transactions_url bankC "CUST1" 50) =
      .ok (Json.arr (List.replicate 51 Json.null))
  ∧ (get_comprehensive_customer_data bankC httpBigTx none "CUST1").lookup "transactions" =
      some (Json.obj [("error", Json.str ("Failed to retrieve transactions: " ++
        "\x27list\x27 object has no attribute \x27get\x27"))])
  ∧ Json.obj [("error", Json.str ("Failed to retrieve transactions: " ++
      "\x27list\x27 object has no attribute \x27get\x27"))] ≠
      Json.arr (List.replicate 51 Json.null) :=
  ⟨rfl, rfl, fun h => Json.noConfusion h⟩

/-- C8 (amended): the Aggregator requests the transactions source with
a server-side limit of 50, passed as a `?limit=50` query parameter
appended to the endpoint URL; whenever the decoded payload is one on
which the logging expression `len(data.get('transactions', []))` does
not raise — in particular any JSON object whose `transactions` field is
an array, of any length — the payload is passed through unchanged with
no client-side re-truncation; a payload on which that expression raises
yields the transactions error descriptor instead. -/
theorem transactions_limit_passthrough (c : BankApiClient) (http : BankHttp) (oid : String) :
    ((get_comprehensive_customer_data c http none oid).lookup "transactions" =
      some (get_transactions c http oid 50))
  ∧ (transactions_url c oid 50 =
      c.base_url ++ (formatCustomerOID c.endpoints.transactions oid ++ "?limit=" ++ "50"))
  ∧ (∀ d, http (transactions_url c oid 50) = .ok d → transactions_log_exc d = none →
      (get_comprehensive_customer_data c http none oid).lookup "transactions" = some d)
  ∧ (∀ entries, http (transactions_url c oid 50) =
        .ok (Json.obj [("transactions", Json.arr entries)]) →
      (get_comprehensive_customer_data c http none oid).lookup "transactions" =
        some (Json.obj [("transactions", Json.arr entries)]))
  ∧ (∀ d e, http (transactions_url c oid 50) = .ok d → transactions_log_exc d = some e →
      (get_comprehensive_customer_data c http none oid).lookup "transactions" =
        some (Json.obj [("error", Json.str ("Failed to retrieve transactions: " ++ e))])) := by
  refine ⟨rfl, rfl, ?_, ?_, ?_⟩
  · intro d h hlog
    show some (get_transactions c http oid 50) = _
    rw [get_transactions_eq, h]
    show some (match transactions_log_exc d with
      | none => d
      | some e => Json.obj [("error", Json.str ("Failed to retrieve transactions: " ++ e))]) = _
    rw [hlog]
  · intro entries h
    show some (get_transactions c http oid 50) = _
    rw [get_transactions_eq, h]
    rfl
  · intro d e h hlog
    show some (get_transactions c http oid 50) = _
    rw [get_transactions_eq, h]
    show some (match transactions_log_exc d with
      | none => d
      | some e => Json.obj [("error", Json.str ("Failed to retrieve transactions: " ++ e))]) = _
    rw [hlog]

/-- C8, witness: when the server ignores the limit and answers an
object holding 51 transaction entries at the limit-50 URL, the
composite's transactions key holds all 51 entries unchanged. -/
theorem transactions_limit_passthrough_witness :
    (get_comprehensive_customer_data bankC httpBigTxObj none "CUST1").lookup "transactions" =
      some (Json.obj [("transactions", Json.arr (List.replicate 51 Json.null))]) :=
  (transactions_limit_passthrough bankC httpBigTxObj "CUST1").2.2.2.1
    (List.replicate 51 Json.null) rfl

/-- Soundness of the prefix-match loop: a returned model is an element
of the list and starts with the base name. -/
theorem firstBaseMatch_some_mem (base : String) (l : List String) (m : String)
    (h : firstBaseMatch base l = some m) : m ∈ l ∧ strStartsWith m base = true := by
  induction l with
  | nil => simp [firstBaseMatch] at h
  | cons x xs ih =>
    by_cases hx : strStartsWith x base = true
    · simp [firstBaseMatch, hx] at h
      subst h
      exact ⟨List.mem_cons_self x xs, hx⟩
    · simp [firstBaseMatch, hx] at h
      obtain ⟨h1, h2⟩ := ih h
      exact ⟨List.mem_cons_of_mem x h1, h2⟩

/-- Completeness of the prefix-match loop: when it returns nothing, no
listed model starts with the base name. -/
theorem firstBaseMatch_none (base : String) (l : List String)
    (h : firstBaseMatch base l = none) : ∀ m ∈ l, strStartsWith m base = false := by
  induction l with
  | nil => intro m hm; cases hm
  | cons x xs ih =>
    intro m hm
    by_cases hx : strStartsWith x base = true
    · simp [firstBaseMatch, hx] at h
    · simp [firstBaseMatch, hx] at h
      rcases List.mem_cons.mp hm with hm | hm
      · subst hm
        exact Bool.not_eq_true _ ▸ Bool.eq_false_iff.mpr hx
      · exact ih h m hm

/-- C3: availability probing succeeds exactly when the configured model
identity appears in the listed models or some listed model starts with
the configured identity's base name (the part before the first `:`);
on a successful prefix match with no exact match, the agent's model
identity is rewritten to the first matching listed name; a failed probe
leaves the registry of the remaining agents exactly as if the failing
configuration were absent (the agent is not registered and
initialization continues).  The hypothesis that listed model names are
non-empty reflects the loop that extracts names from the runtime
response and drops empty ones. -/
theorem agent_probe_policy (a : Agent) (av : List String) (hne : ∀ m ∈ av, m ≠ "") :
    ((a.is_model_available av).fst = true ↔
      a.model ∈ av ∨ ∃ m ∈ av, strStartsWith m (model_base a.model) = true)
  ∧ (∀ m, a.model ∉ av → firstBaseMatch (model_base a.model) av = some m →
      (a.is_model_available av).snd.model = m)
  ∧ (∀ (cfg : AgentConfig) (rest : List AgentConfig),
      cfg.enabled = true →
      ((Agent.init cfg).is_model_available av).fst = false →
      initialize_agents (cfg :: rest) av = initialize_agents rest av) := by
  have hfilter : av.filter (fun m => m != "") = av := by
    rw [List.filter_eq_self]
    intro m hm
    simpa using hne m hm
  refine ⟨?_, ?_, ?_⟩
  · simp only [Agent.is_model_available, hfilter]
    by_cases hc : av.contains a.model = true
    · rw [if_pos hc]
      exact iff_of_true rfl (Or.inl (List.elem_iff.mp hc))
    · rw [if_neg hc]
      rcases hfm : firstBaseMatch (model_base a.model) av with _ | m
      · refine iff_of_false (by simp) ?_
        rintro (hmem | ⟨m, hm, hstart⟩)
        · exact hc (List.elem_iff.mpr hmem)
        · rw [firstBaseMatch_none (model_base a.model) av hfm m hm] at hstart
          cases hstart
      · obtain ⟨h1, h2⟩ := firstBaseMatch_some_mem (model_base a.model) av m hfm
        exact iff_of_true rfl (Or.inr ⟨m, h1, h2⟩)
  · intro m hnot hfm
    simp only [Agent.is_model_available, hfilter]
    rw [if_neg (fun hc => hnot (List.elem_iff.mp hc)), hfm]
  · intro cfg rest hen hprobe
    unfold initialize_agents
    simp only [List.foldl]
    rcases hp : (Agent.init cfg).is_model_available av with ⟨b, a2⟩
    rw [hp] at hprobe
    simp only at hprobe
    subst hprobe
    simp [init_agents_step, hen, hp]

/-- C3, witness: with configured model `llama3.2:latest` and listed
models `["llama3.2:3b"]`, probing succeeds via prefix match on
`llama3.2` and rewrites the agent's model to `llama3.2:3b`; an agent
whose model matches nothing is skipped, and initialization of the
remaining agents continues unchanged. -/
theorem agent_probe_policy_witness :
    (((mkAgent "market_analyst" "llama3.2:latest").is_model_available ["llama3.2:3b"]).fst = true)
  ∧ (((mkAgent "market_analyst" "llama3.2:latest").is_model_available ["llama3.2:3b"]).snd.model =
      "llama3.2:3b")
  ∧ (initialize_agents [mkCfg "market_analyst" "mistral", mkCfg "portfolio_manager" "llama3.2:latest"]
        ["llama3.2:3b"] =
      initialize_agents [mkCfg "portfolio_manager" "llama3.2:latest"] ["llama3.2:3b"]) := by
  obtain ⟨hiff, hsub, hcont⟩ :=
    agent_probe_policy (mkAgent "market_analyst" "llama3.2:latest") ["llama3.2:3b"] (by decide)
  refine ⟨?_, ?_, ?_⟩
  · exact hiff.mpr (Or.inr ⟨"llama3.2:3b", by decide, by decide⟩)
  · exact hsub "llama3.2:3b" (by decide) (by decide)
  · obtain ⟨_, _, hcont2⟩ :=
      agent_probe_policy (mkAgent "x" "mistral") ["llama3.2:3b"] (by decide)
    exact hcont2 (mkCfg "market_analyst" "mistral")
      [mkCfg "portfolio_manager" "llama3.2:latest"] rfl (by decide)

/-- C4: task-type routing selects the table-preferred agent (the task
table's entry, defaulting to `explainability_agent`) whenever that
agent is registered; otherwise it selects the first registered agent in
insertion order; and with an empty registry it returns the sentinel
`("none", "Error: No agents available")` instead of raising. -/
theorem query_best_agent_routing (agents : List (String × Agent)) (c : BankApiClient)
    (http : BankHttp) (gen : GenOracle) (render : Json → String)
    (prompt : String) (task_type : String) (context : Option String) :
    ((agents.lookup ((task_agent_mapping.lookup task_type).getD "explainability_agent")).isSome = true →
      (query_best_agent agents c http gen render prompt task_type context).fst =
        (task_agent_mapping.lookup task_type).getD "explainability_agent")
  ∧ ((agents.lookup ((task_agent_mapping.lookup task_type).getD "explainability_agent")).isSome = false →
      ∀ n a rest, agents = (n, a) :: rest →
        (query_best_agent agents c http gen render prompt task_type context).fst = n)
  ∧ (agents = [] →
      query_best_agent agents c http gen render prompt task_type context =
        ("none", "Error: No agents available")) := by
  refine ⟨?_, ?_, ?_⟩
  · intro h
    unfold query_best_agent
    rw [if_pos h]
  · intro h n a rest ha
    subst ha
    unfold query_best_agent
    rw [if_neg (by simp [h])]
  · intro h
    subst h
    rfl

/-- C4, witness: with only `risk_analyst` registered, `route("risk")`
selects it; with only `portfolio_manager` registered, `route("risk")`
falls back to `portfolio_manager`; with no registered agent it returns
the `"none"` sentinel with the error result. -/
theorem query_best_agent_routing_witness :
    ((query_best_agent regRisk bankC httpAllOk genOk renderStub "q" "risk" none).fst =
      "risk_analyst")
  ∧ ((query_best_agent regPM bankC httpAllOk genOk renderStub "q" "risk" none).fst =
      "portfolio_manager")
  ∧ (query_best_agent [] bankC httpAllOk genOk renderStub "q" "risk" none =
      ("none", "Error: No agents available")) := by
  refine ⟨?_, ?_, ?_⟩
  · exact (query_best_agent_routing regRisk bankC httpAllOk genOk renderStub "q" "risk" none).1
      (by decide)
  · exact (query_best_agent_routing regPM bankC httpAllOk genOk renderStub "q" "risk" none).2.1
      (by decide) "portfolio_manager" (mkAgent "portfolio_manager" "llama3.2:3b") [] rfl
  · exact (query_best_agent_routing [] bankC httpAllOk genOk renderStub "q" "risk" none).2.2 rfl

/-- C5: tool routing returns the mapped agent only when that exact
agent is registered — an unmapped tool name yields no agent, a mapped
but unregistered agent yields no agent (the result is exactly the
registry lookup of the mapped name, with no fallback to any other
registered agent), and a no-agent outcome makes the `/mcp/call` handler
answer the no-agent-available error. -/
theorem tool_routing_no_fallback (agents : List (String × Agent)) (tool_name : String) :
    (tool_agent_mapping.lookup tool_name = none → get_agent_for_tool agents tool_name = none)
  ∧ (∀ n, tool_agent_mapping.lookup tool_name = some n →
      get_agent_for_tool agents tool_name = agents.lookup n)
  ∧ (∀ ex, get_agent_for_tool agents tool_name = none →
      call_tool agents ex tool_name = .error ("No agent available for tool: " ++ tool_name)) := by
  refine ⟨?_, ?_, ?_⟩
  · intro h
    unfold get_agent_for_tool
    rw [h]
  · intro n h
    unfold get_agent_for_tool get_agent
    rw [h]
  · intro ex h
    unfold call_tool
    rw [h]

/-- C5, witness: with only `portfolio_manager` registered,
`calculate_var` (mapped to the unregistered `risk_analyst`) yields no
agent and the call handler answers the no-agent error, even though
another agent is registered; an unmapped tool name also yields no
agent. -/
theorem tool_routing_no_fallback_witness :
    get_agent_for_tool regPM "calculate_var" = none
  ∧ call_tool regPM (fun a => a.name) "calculate_var" =
      .error ("No agent available for tool: " ++ "calculate_var")
  ∧ get_agent_for_tool regPM "made_up_tool" = none := by
  obtain ⟨_, hmap, hcall⟩ := tool_routing_no_fallback regPM "calculate_var"
  obtain ⟨hnone2, _, _⟩ := tool_routing_no_fallback regPM "made_up_tool"
  have h1 : get_agent_for_tool regPM "calculate_var" = none :=
    (hmap "risk_analyst" rfl).trans rfl
  exact ⟨h1, hcall (fun a => a.name) h1, hnone2 rfl⟩

/-- C6, counterexample: the claim that tool names absent from the
routing table route to `explainability_agent` is false — with
`explainability_agent` registered, the unmapped tool name
`"made_up_tool"` routes to no agent at all rather than to the
registered default agent. -/
theorem default_routing_tool_cex :
    get_agent regEx "explainability_agent" =
      some (mkAgent "explainability_agent" "llama3.2:3b")
  ∧ tool_agent_mapping.lookup "made_up_tool" = none
  ∧ get_agent_for_tool regEx "made_up_tool" = none := by
  refine ⟨rfl, rfl, rfl⟩

/-- C6 (amended): a task type absent from the task table routes to
`explainability_agent` (the lookup's default), which is selected
whenever it is registered; a tool name absent from the tool table
routes to no agent at all, even when `explainability_agent` is
registered. -/
theorem default_routing_amended (agents : List (String × Agent)) (c : BankApiClient)
    (http : BankHttp) (gen : GenOracle) (render : Json → String) (prompt : String)
    (context : Option String) :
    (∀ task_type, task_agent_mapping.lookup task_type = none →
      (agents.lookup "explainability_agent").isSome = true →
      (query_best_agent agents c http gen render prompt task_type context).fst =
        "explainability_agent")
  ∧ (∀ tool_name, tool_agent_mapping.lookup tool_name = none →
      get_agent_for_tool agents tool_name = none) := by
  constructor
  · intro task h hreg
    unfold query_best_agent
    rw [h]
    simp only [Option.getD_none]
    rw [if_pos hreg]
  · intro tool h
    unfold get_agent_for_tool
    rw [h]

/-- C6, witness: with only `explainability_agent` registered, the
unmapped task type `"made_up_task"` routes to `explainability_agent`,
while the unmapped tool name `"made_up_tool"` routes to no agent. -/
theorem default_routing_amended_witness :
    ((query_best_agent regEx bankC httpAllOk genOk renderStub "q" "made_up_task" none).fst =
      "explainability_agent")
  ∧ get_agent_for_tool regEx "made_up_tool" = none := by
  obtain ⟨h1, h2⟩ := default_routing_amended regEx bankC httpAllOk genOk renderStub "q" none
  exact ⟨h1 "made_up_task" rfl rfl, h2 "made_up_tool" rfl⟩

/-- C7, counterexample: the claim that the generation-failure string
embeds both the agent's name and the underlying error is false — for
the agent named `risk_analyst` and a generation call failing with
`boom`, the returned string embeds the error message but does not
contain the agent's name anywhere. -/
theorem generate_response_error_cex :
    (Agent.generate_response (mkAgent "risk_analyst" "llama3.2:3b") bankC httpAllOk genBoom
        renderStub "hello" none none =
      "Error: Unable to generate response - boom")
  ∧ (occursIn "risk_analyst"
      (Agent.generate_response (mkAgent "risk_analyst" "llama3.2:3b") bankC httpAllOk genBoom
        renderStub "hello" none none) = false)
  ∧ (occursIn "boom"
      (Agent.generate_response (mkAgent "risk_analyst" "llama3.2:3b") bankC httpAllOk genBoom
        renderStub "hello" none none) = true) := by
  refine ⟨rfl, ?_, ?_⟩ <;> decide

/-- C7 (amended): when the underlying text-generation call fails,
`generate_response` returns (rather than raises) an error string that
embeds the underlying error message after a fixed prefix; the agent's
name is only logged, not embedded in the returned string. -/
theorem generate_response_error_amended (a : Agent) (c : BankApiClient) (http : BankHttp)
    (gen : GenOracle) (render : Json → String) (prompt : String) (context : Option String)
    (customer_oid : Option String) (e : String)
    (h : gen a.model (build_full_prompt a c http render prompt context customer_oid) = .error e) :
    Agent.generate_response a c http gen render prompt context customer_oid =
      "Error: Unable to generate response - " ++ e := by
  unfold Agent.generate_response
  rw [h]

/-- C7, witness: the amended statement at the `risk_analyst` fixture
with a generation call failing with `boom`. -/
theorem generate_response_error_amended_witness :
    Agent.generate_response (mkAgent "risk_analyst" "llama3.2:3b") bankC httpAllOk genBoom
        renderStub "hello" none none =
      "Error: Unable to generate response - " ++ "boom" :=
  generate_response_error_amended (mkAgent "risk_analyst" "llama3.2:3b") bankC httpAllOk
    genBoom renderStub "hello" none none "boom" rfl

/-- C9: availability probing may rewrite only the agent's `model`
field — the probed agent equals the original with just `model`
replaced, so `model_name` keeps the configured identity; the status
endpoint reports `model_name` for each agent while generation consults
the oracle at the (possibly substituted) `model`; concretely, after the
`llama3.2:latest` to `llama3.2:3b` substitution the registry holds the
substituted model with the configured `model_name`, and `/mcp/status`
reports the configured `llama3.2:latest`. -/
theorem probe_rewrites_model_only (a : Agent) (av : List String) :
    ((a.is_model_available av).snd =
      { a with model := (a.is_model_available av).snd.model })
  ∧ ((a.is_model_available av).snd.model_name = a.model_name)
  ∧ (∀ agents, get_status_agents agents =
      agents.map (fun p => (p.fst, p.snd.is_available, p.snd.model_name)))
  ∧ (∀ c http gen render prompt context customer_oid,
      Agent.generate_response (a.is_model_available av).snd c http gen render prompt
          context customer_oid =
        match gen ((a.is_model_available av).snd.model)
            (build_full_prompt (a.is_model_available av).snd c http render prompt
              context customer_oid) with
        | .ok r => r
        | .error e => "Error: Unable to generate response - " ++ e)
  ∧ (initialize_agents [mkCfg "market_analyst" "llama3.2:latest"] ["llama3.2:3b"] =
      [("market_analyst",
        { name := "market_analyst", model := "llama3.2:3b", model_name := "llama3.2:latest"
        , role := "role", system_prompt := "sp", is_available := true })])
  ∧ (get_status_agents
        (initialize_agents [mkCfg "market_analyst" "llama3.2:latest"] ["llama3.2:3b"]) =
      [("market_analyst", true, "llama3.2:latest")]) := by
  have hframe : (a.is_model_available av).snd =
      { a with model := (a.is_model_available av).snd.model } := by
    simp only [Agent.is_model_available]
    split
    · rfl
    · split <;> rfl
  refine ⟨hframe, ?_, fun agents => rfl, fun c http gen render prompt context customer_oid => rfl,
    by decide, by decide⟩
  rw [hframe]

/-- One initialization step preserves the registry invariant that every
inserted agent has `is_available = true` (the step inserts only after a
successful probe, setting the flag). -/
theorem init_step_preserves_available (av : List String) (acc : List (String × Agent))
    (cfg : AgentConfig) (hacc : ∀ p ∈ acc, p.2.is_available = true) :
    ∀ p ∈ init_agents_step av acc cfg, p.2.is_available = true := by
  intro p hp
  unfold init_agents_step at hp
  by_cases hen : cfg.enabled = true
  · rw [if_pos hen] at hp
    rcases hm : (Agent.init cfg).is_model_available av with ⟨b, a2⟩
    rw [hm] at hp
    cases b
    · exact hacc p hp
    · rcases List.mem_append.mp hp with h | h
      · exact hacc p h
      · rw [List.mem_singleton.mp h]
  · rw [if_neg hen] at hp
    exact hacc p hp

/-- The initialization fold preserves the all-available invariant from
any starting registry. -/
theorem initialize_fold_available (av : List String) (configs : List AgentConfig) :
    ∀ acc, (∀ p ∈ acc, p.2.is_available = true) →
      ∀ p ∈ configs.foldl (init_agents_step av) acc, p.2.is_available = true := by
  induction configs with
  | nil => intro acc hacc p hp; exact hacc p hp
  | cons cfg rest ih =>
    intro acc hacc p hp
    exact ih (init_agents_step av acc cfg)
      (init_step_preserves_available av acc cfg hacc) p hp

/-- C10: every agent present in the registry produced by agent
initialization has `is_available = true` — an agent is inserted only
after a successful probe sets the flag — and consequently the status
endpoint reports `available = true` for every listed agent. -/
theorem registry_agents_all_available (configs : List AgentConfig) (av : List String) :
    (∀ p ∈ initialize_agents configs av, p.2.is_available = true)
  ∧ (∀ q ∈ get_status_agents (initialize_agents configs av), q.2.1 = true) := by
  have h1 : ∀ p ∈ initialize_agents configs av, p.2.is_available = true := by
    intro p hp
    exact initialize_fold_available av configs [] (by intro p hp; cases hp) p hp
  refine ⟨h1, ?_⟩
  intro q hq
  obtain ⟨p, hp, hpq⟩ := List.mem_map.mp hq
  rw [← hpq]
  exact h1 p hp

/-- C10, witness: in the registry built from one configuration whose
model is substituted during probing, the registered agent has
`is_available = true` and the status endpoint reports it available. -/
theorem registry_agents_all_available_witness :
    ("market_analyst",
      ({ name := "market_analyst", model := "llama3.2:3b", model_name := "llama3.2:latest"
       , role := "role", system_prompt := "sp", is_available := true } : Agent)).2.is_available = true
  ∧ (("market_analyst", true, "llama3.2:latest") : String × Bool × String).2.1 = true := by
  obtain ⟨h1, h2⟩ :=
    registry_agents_all_available [mkCfg "market_analyst" "llama3.2:latest"] ["llama3.2:3b"]
  exact ⟨h1 _ (by decide), h2 _ (by decide)⟩
